import Mathlib

/-!
Shallow embedding of the email-validator worker (Go sources: `main.go`,
`smtp.go`, `ratelimiter.go`) and proofs about its specification claims.

Strings that the Go code manipulates character-by-character (email
addresses, SMTP reply lines) are embedded as `List Char`; plain
identifiers (job ids, status strings, error messages) stay `String`.
All SMTP replies handled here are ASCII, so Go's byte length and the
embedded character length agree on every string the code accepts.
-/

namespace EmailValidator

/-- Convert a string literal to the `List Char` representation. -/
def str (s : String) : List Char := s.data

/-- `EmailStatus` from `smtp.go`: the five status constants. -/
inductive EmailStatus where
  | valid
  | invalid
  | greylisted
  | catchAll
  | unknown
deriving DecidableEq, Repr

/-- The literal string persisted for each status (the Go constants
`StatusValid = "VALID"` and so on). -/
def statusString : EmailStatus → String
  | .valid => "VALID"
  | .invalid => "INVALID"
  | .greylisted => "GREYLISTED"
  | .catchAll => "CATCH_ALL"
  | .unknown => "UNKNOWN"

/-- `SMTPResult` from `smtp.go`. `smtpCode` is a Go `int`; `bounceReason`
is kept as a character list because it is built from SMTP reply bytes. -/
structure SMTPResult where
  status : EmailStatus
  smtpCode : Int
  bounceReason : List Char
  isRetryable : Bool
deriving DecidableEq, Repr

/-- `ProxyConfig` from `smtp.go`. -/
structure ProxyConfig where
  address : String
  username : String
  password : String
deriving DecidableEq, Repr

/-- Go `unicode.IsSpace` restricted to the Latin-1 range (the only
characters that can occur in the ASCII SMTP replies this code reads):
space, tab, newline, vertical tab, form feed, carriage return, NEL, NBSP. -/
def goIsSpace (c : Char) : Bool :=
  decide (c = ' ') || decide (c = '\t') || decide (c = '\n') ||
  decide (c.toNat = 11) || decide (c.toNat = 12) || decide (c = '\r') ||
  decide (c.toNat = 133) || decide (c.toNat = 160)

/-- Go `strings.TrimSpace`: drop whitespace from both ends. -/
def trimSpace (l : List Char) : List Char :=
  ((l.dropWhile goIsSpace).reverse.dropWhile goIsSpace).reverse

/-- Decimal value of a digit run (most significant first). -/
def digitsVal (l : List Char) : Nat :=
  l.foldl (fun n c => 10 * n + (c.toNat - 48)) 0

/-- Go `fmt.Sscanf(s, "%d", &code)` on a short string: skip leading
whitespace, read an optional sign and a digit run.  On a scan failure the
target variable keeps its zero value, so the result is `0`. -/
def scanInt (l : List Char) : Int :=
  let l' := l.dropWhile goIsSpace
  match l' with
  | '-' :: rest =>
      let ds := rest.takeWhile Char.isDigit
      if ds = [] then 0 else -(digitsVal ds : Int)
  | '+' :: rest =>
      let ds := rest.takeWhile Char.isDigit
      if ds = [] then 0 else (digitsVal ds : Int)
  | _ =>
      let ds := l'.takeWhile Char.isDigit
      if ds = [] then 0 else (digitsVal ds : Int)

/-- `parseSMTPCode` from `smtp.go`: replies shorter than 3 bytes give 0,
otherwise the first three bytes are scanned with `%d`. -/
def parseSMTPCode (response : List Char) : Int :=
  if response.length < 3 then 0
  else scanInt (response.take 3)

/-- The slice `response[4:]` taken on the RCPT TO reply in `CheckEmail`
(`smtp.go`), followed by `strings.TrimSpace`.  A Go slice `s[4:]` is only
legal when `4 ≤ len(s)`; on a shorter reply the expression panics, which
the embedding records as `none`. -/
def rcptBounce (response : List Char) : Option (List Char) :=
  if 4 ≤ response.length then some (trimSpace (response.drop 4))
  else none

/-- The `switch` on the RCPT TO reply code in `CheckEmail` (`smtp.go`
lines 294-315): the response classifier `(code) → (status, retryable)`. -/
def classifyRcptCode (code : Int) : EmailStatus × Bool :=
  if code = 250 then (.valid, false)
  else if code = 251 ∨ code = 252 then (.catchAll, false)
  else if code = 450 ∨ code = 451 ∨ code = 421 then (.greylisted, true)
  else if code = 550 ∨ code = 551 ∨ code = 553 then (.invalid, false)
  else (.unknown, false)

/-- Number of occurrences of a character (Go `strings.Count` with a
one-character separator). -/
def countChar (c : Char) : List Char → Nat
  | [] => 0
  | x :: xs => (if x = c then 1 else 0) + countChar c xs

/-- Go `strings.Split` with a one-character separator. -/
def splitOnChar (sep : Char) : List Char → List (List Char)
  | [] => [[]]
  | c :: rest =>
      if c = sep then [] :: splitOnChar sep rest
      else
        match splitOnChar sep rest with
        | h :: t => (c :: h) :: t
        | [] => [[c]]

/-- Go `strings.Contains(s, "..")`: two adjacent dots somewhere in `s`. -/
def hasDoubleDot : List Char → Bool
  | c1 :: c2 :: rest =>
      (decide (c1 = '.') && decide (c2 = '.')) || hasDoubleDot (c2 :: rest)
  | _ => false

/-- Character class of the local part in the `emailRegex` of `main.go`:
letters, digits, and the specials of the RFC-5322 atom text.  The
apostrophe (39), backquote (96) and curly braces (123, 125) are named by
code point. -/
def isLocalChar (c : Char) : Bool :=
  c.isAlphanum || "!#$%&*+/=?^_|~-.".data.contains c ||
  decide (c.toNat = 39) || decide (c.toNat = 96) ||
  decide (c.toNat = 123) || decide (c.toNat = 125)

/-- Interior character of a domain label in `emailRegex`: letter, digit
or hyphen. -/
def isLabelChar (c : Char) : Bool :=
  c.isAlphanum || decide (c = '-')

/-- One domain label of `emailRegex`:
`[a-zA-Z0-9](?:[a-zA-Z0-9-]{0,61}[a-zA-Z0-9])?` — nonempty, at most 63
characters, alphanumeric at both ends, alphanumeric or hyphen inside. -/
def labelOK : List Char → Bool
  | [] => false
  | [c] => c.isAlphanum
  | c :: rest =>
      c.isAlphanum && decide ((c :: rest).length ≤ 63) &&
      rest.dropLast.all isLabelChar &&
      (match rest.getLast? with
       | some z => z.isAlphanum
       | none => false)

/-- `emailRegex.MatchString` from `main.go`.  The regex is
`^local+@label(\.label)+$` where `local` is `isLocalChar` and `label` is
`labelOK`.  Since `@` belongs to neither character class, a string
matches exactly when it splits at `@` into two parts, the first a
nonempty run of local characters and the second a dot-separated sequence
of at least two labels (`.` is not a label character, so splitting on
dots is faithful). -/
def emailRegexMatch (e : List Char) : Bool :=
  match splitOnChar '@' e with
  | [lp, dp] =>
      decide (lp ≠ []) && lp.all isLocalChar &&
      (let labels := splitOnChar '.' dp
       decide (2 ≤ labels.length) && labels.all labelOK)
  | _ => false

/-- Last label of the domain: `domainParts[len(domainParts)-1]` after
`strings.Split(domainPart, ".")` in `isValidEmailSyntax`. -/
def lastLabel (dp : List Char) : List Char :=
  (splitOnChar '.' dp).getLastD []

/-- `isValidEmailSyntax` from `main.go`, check for check in source order.
Each Go `if cond { return false }` becomes a `!cond &&` conjunct; the
`len(parts) != 2` early return is the wildcard arm of the match. -/
def isValidEmailSyntax (email : List Char) : Bool :=
  !(decide (email.length < 3) || decide (254 < email.length)) &&
  decide (countChar '@' email = 1) &&
  (match splitOnChar '@' email with
   | [localPart, domainPart] =>
       !(decide (localPart.length = 0) || decide (64 < localPart.length)) &&
       !(hasDoubleDot localPart) &&
       !(decide (localPart.head? = some '.') || decide (localPart.getLast? = some '.')) &&
       !(decide (domainPart.length = 0) || decide (253 < domainPart.length)) &&
       !(hasDoubleDot domainPart) &&
       !(decide (domainPart.head? = some '.') || decide (domainPart.getLast? = some '.')) &&
       decide ('.' ∈ domainPart) &&
       !(decide ((lastLabel domainPart).length < 2)) &&
       emailRegexMatch email
   | _ => false)

/-- `EmailJob` from `main.go`: the work item `{jobId, email}`. -/
structure EmailJob where
  jobId : String
  email : List Char
deriving DecidableEq, Repr

/-- A `rate.Limiter` is described by its two construction arguments
(rate in tokens/sec, burst). -/
structure RateLimiter where
  rateLimit : Nat
  burst : Nat
deriving DecidableEq, Repr

/-- `RateLimiterManager` from `ratelimiter.go`: the global bucket plus
the per-domain bucket table (the association list stands for the Go
map). -/
structure RateLimiterManager where
  globalLimiter : RateLimiter
  domainLimiters : List (String × RateLimiter)
deriving DecidableEq, Repr

/-- `NewRateLimiterManager` from `ratelimiter.go`:
`rate.NewLimiter(10, 10)` for the global bucket and the fixed per-domain
rows. -/
def newRateLimiterManager : RateLimiterManager :=
  { globalLimiter := ⟨10, 10⟩
    domainLimiters :=
      [("gmail.com", ⟨2, 2⟩), ("googlemail.com", ⟨2, 2⟩),
       ("outlook.com", ⟨1, 1⟩), ("hotmail.com", ⟨1, 1⟩),
       ("live.com", ⟨1, 1⟩), ("yahoo.com", ⟨1, 1⟩)] }

/-- The bucket `RateLimiterManager.Wait` uses for a domain: the table
row for the lowercased name, or the lazily created default
`rate.NewLimiter(5, 5)`. -/
def domainLimiterFor (m : RateLimiterManager) (domain : String) : RateLimiter :=
  (m.domainLimiters.lookup domain.toLower).getD ⟨5, 5⟩

/-- Observable pacing events of the dispatcher/worker pipeline for one
work item.  Token acquisitions name the bucket; connect events name the
SMTP session (catch-all probe vs. main dialog).  Connect events
over-approximate: they are emitted whenever `connectWithProxy` would
attempt a dial on that path. -/
inductive Event where
  | acquireGlobal
  | acquireDomain
  | pop
  | connectProbe
  | connectMain
deriving DecidableEq, Repr

/-- `RateLimiterManager.Wait` (`ratelimiter.go` lines 51-89): one token
from the global bucket first, then one from the per-domain bucket. -/
def managerWaitTrace : List Event := [.acquireGlobal, .acquireDomain]

/-- Pacing events of `CheckEmail` (`smtp.go`), parameterized by the path
conditions: dev mode dials the local sink directly; production aborts
before any dial when the MX step fails; with a proxy configured the
catch-all probe dials first and the main dialog dials only when the
probe did not classify the domain as catch-all; production without a
proxy never dials (`connectWithProxy` refuses). -/
def checkEmailTrace (isDevMode proxyConf mxOk probeCatchAll : Bool) : List Event :=
  if isDevMode then [.connectMain]
  else if !mxOk then []
  else if proxyConf then
    .connectProbe :: (if probeCatchAll then [] else [.connectMain])
  else []

/-- Pacing events of `processEmail` (`main.go` lines 301-387): nothing
on a syntax rejection, otherwise the worker's `rateLimiter.Wait`
followed by the `CheckEmail` events. -/
def processEmailTrace (job : EmailJob) (isDevMode proxyConf mxOk probeCatchAll : Bool) :
    List Event :=
  if isValidEmailSyntax job.email then
    managerWaitTrace ++ checkEmailTrace isDevMode proxyConf mxOk probeCatchAll
  else []

/-- Pacing events of one dispatcher iteration that dequeues a job
(`main.go` lines 171-214: `rateLimiter.globalLimiter.Wait` before the
blocking `BRPop`) followed by the worker's processing of that job. -/
def itemTrace (job : EmailJob) (isDevMode proxyConf mxOk probeCatchAll : Bool) :
    List Event :=
  .acquireGlobal :: .pop :: processEmailTrace job isDevMode proxyConf mxOk probeCatchAll

/-- Pacing invariant checker: walking the trace with running counts of
global and domain tokens, every main-dialog connect needs at least one
global token already acquired, and every probe connect needs both a
global and a per-domain token already acquired. -/
def paced : List Event → Nat → Nat → Bool
  | [], _, _ => true
  | .connectMain :: rest, g, d => decide (1 ≤ g) && paced rest g d
  | .connectProbe :: rest, g, d => decide (1 ≤ g) && decide (1 ≤ d) && paced rest g d
  | .acquireGlobal :: rest, g, d => paced rest (g + 1) d
  | .acquireDomain :: rest, g, d => paced rest g (d + 1)
  | .pop :: rest, g, d => paced rest g d

/-- Number of global-token acquisitions strictly before the first
per-domain acquisition of a trace. -/
def globalsBeforeDomainWait : List Event → Nat
  | [] => 0
  | .acquireDomain :: _ => 0
  | .acquireGlobal :: rest => 1 + globalsBeforeDomainWait rest
  | _ :: rest => globalsBeforeDomainWait rest

/-- Outcome of the SOCKS5 dial `select` in `connectWithProxy`
(`smtp.go` lines 369-381): the dial goroutine's result, a context
cancellation, or the 5-second timeout. -/
inductive SocksOutcome where
  | result (r : Except String Unit)
  | cancelled (msg : String)
  | timedOut
deriving Repr

/-- Environment of one `connectWithProxy` call: the outcome each dial
path would have if taken. -/
structure DialEnv where
  directDial : Except String Unit
  socksSetup : Except String Unit
  socksOutcome : SocksOutcome
deriving Repr

/-- The Go guard `proxyConfig != nil && proxyConfig.Address != ""`. -/
def proxyEffective : Option ProxyConfig → Bool
  | none => false
  | some p => !(decide (p.address = ""))

/-- `connectWithProxy` from `smtp.go` lines 334-392.  First component:
the returned connection (`.ok`) or error; second component: whether an
outbound TCP dial was attempted at all.  Dev mode dials directly;
production with an effective proxy goes through SOCKS5 with no fallback;
production without a proxy refuses before dialing.  (The trailing direct
dial at line 391 is unreachable: `isDevMode` was handled first.) -/
def connectWithProxy (isDevMode : Bool) (proxyConfig : Option ProxyConfig)
    (env : DialEnv) : Except String Unit × Bool :=
  if isDevMode then (env.directDial, true)
  else if proxyEffective proxyConfig then
    match env.socksSetup with
    | .error e => (.error ("failed to create SOCKS5 dialer: " ++ e), false)
    | .ok _ =>
        match env.socksOutcome with
        | .result (.ok _) => (.ok (), true)
        | .result (.error e) => (.error ("SOCKS5 proxy connection failed: " ++ e), true)
        | .cancelled m => (.error ("SOCKS5 proxy connection cancelled: " ++ m), true)
        | .timedOut => (.error "SOCKS5 proxy connection timeout", true)
  else (.error "SOCKS5_PROXY not configured in production mode (safety requirement)", false)

/-- `ProbeResult` from `smtp.go`. -/
structure ProbeResult where
  isCatchAll : Bool
  smtpCode : Int
deriving DecidableEq, Repr

/-- Environment of one catch-all probe session: its dial outcomes and
the reply its `RCPT TO` read would obtain (the probe ignores the
greeting/HELO/MAIL reads). -/
structure ProbeEnv where
  dial : DialEnv
  rcptReply : Except String (List Char)
deriving Repr

/-- `checkCatchAll` from `smtp.go` lines 405-461: dial (always with
`isDevMode=false`), on failure assume not catch-all; otherwise run the
envelope and classify the probe's RCPT reply — 250/251/252 means the
domain accepts arbitrary recipients. -/
def checkCatchAll (proxyConfig : Option ProxyConfig) (env : ProbeEnv) : ProbeResult :=
  match (connectWithProxy false proxyConfig env.dial).1 with
  | .error _ => ⟨false, 0⟩
  | .ok _ =>
      match env.rcptReply with
      | .error _ => ⟨false, 0⟩
      | .ok r =>
          let code := parseSMTPCode r
          if code = 250 ∨ code = 251 ∨ code = 252 then ⟨true, code⟩
          else ⟨false, code⟩

/-- One `net.MX` record (only the host matters to the code). -/
structure MXRecord where
  host : List Char
deriving DecidableEq, Repr

/-- `strings.TrimSuffix(host, ".")`. -/
def trimDotSuffix (l : List Char) : List Char :=
  if l.getLast? = some '.' then l.dropLast else l

/-- Environment of one `CheckEmail` call: the MX lookup result, the
probe session's environment, and the dial/write/read outcomes of the
main SMTP dialog in protocol order. -/
structure SMTPEnv where
  mxResult : Except String (List MXRecord)
  probe : ProbeEnv
  dial : DialEnv
  greeting : Except String (List Char)
  heloWrite : Except String Unit
  heloReply : Except String (List Char)
  mailWrite : Except String Unit
  mailReply : Except String (List Char)
  rcptWrite : Except String Unit
  rcptReply : Except String (List Char)
deriving Repr

/-- The main SMTP dialog of `CheckEmail` (`smtp.go` lines 149-326):
connect, read 220, HELO, MAIL FROM, RCPT TO, classify.  `none` is the
run-time panic of `response[4:]` on a RCPT reply shorter than 4 bytes;
every other path returns `some` result (the Go function never returns a
non-nil error). -/
def smtpDialog (isDevMode : Bool) (proxyConfig : Option ProxyConfig)
    (env : SMTPEnv) : Option SMTPResult :=
  match (connectWithProxy isDevMode proxyConfig env.dial).1 with
  | .error e => some ⟨.unknown, 0, str ("Connection failed: " ++ e), false⟩
  | .ok _ =>
  match env.greeting with
  | .error e => some ⟨.unknown, 0, str ("Failed to read greeting: " ++ e), false⟩
  | .ok g =>
  if parseSMTPCode g ≠ 220 then
    some ⟨.unknown, parseSMTPCode g, str "Server greeting error: " ++ g, false⟩
  else
  match env.heloWrite with
  | .error e => some ⟨.unknown, 0, str ("Failed to send HELO: " ++ e), false⟩
  | .ok _ =>
  match env.heloReply with
  | .error e => some ⟨.unknown, 0, str ("Failed to read HELO response: " ++ e), false⟩
  | .ok hr =>
  if parseSMTPCode hr ≠ 250 then
    some ⟨.unknown, parseSMTPCode hr, str "HELO error: " ++ hr, false⟩
  else
  match env.mailWrite with
  | .error e => some ⟨.unknown, 0, str ("Failed to send MAIL FROM: " ++ e), false⟩
  | .ok _ =>
  match env.mailReply with
  | .error e => some ⟨.unknown, 0, str ("Failed to read MAIL FROM response: " ++ e), false⟩
  | .ok mr =>
  if parseSMTPCode mr ≠ 250 then
    some ⟨.unknown, parseSMTPCode mr, str "MAIL FROM error: " ++ mr, false⟩
  else
  match env.rcptWrite with
  | .error e => some ⟨.unknown, 0, str ("Failed to send RCPT TO: " ++ e), false⟩
  | .ok _ =>
  match env.rcptReply with
  | .error e => some ⟨.unknown, 0, str ("Failed to read RCPT TO response: " ++ e), false⟩
  | .ok rr =>
  match rcptBounce rr with
  | none => none
  | some bounce =>
      let c := parseSMTPCode rr
      let sr := classifyRcptCode c
      some ⟨sr.1, c, bounce, sr.2⟩

/-- `CheckEmail` from `smtp.go` lines 47-327: split the address, resolve
the destination (dev: the local sink; prod: the MX chain with its three
hard-fail checks), run the catch-all probe in production, then the main
dialog.  `none` is the `response[4:]` panic. -/
def checkEmail (email : List Char) (isDevMode : Bool)
    (proxyConfig : Option ProxyConfig) (env : SMTPEnv) : Option SMTPResult :=
  match splitOnChar '@' email with
  | [_lp, _dp] =>
      if isDevMode then smtpDialog true proxyConfig env
      else
        match env.mxResult with
        | .error e => some ⟨.invalid, 550, str ("MX lookup failed: " ++ e), false⟩
        | .ok [] => some ⟨.invalid, 550, str "No MX records found", false⟩
        | .ok (mx0 :: _) =>
            if mx0.host = [] ∨ trimSpace mx0.host = [] then
              some ⟨.invalid, 550, str "Invalid MX record (empty hostname)", false⟩
            else if trimDotSuffix mx0.host = [] then
              some ⟨.invalid, 550,
                str "Invalid MX record (empty hostname after processing)", false⟩
            else if (checkCatchAll proxyConfig env.probe).isCatchAll then
              some ⟨.catchAll, 250, str "Catch-all domain detected via probe", false⟩
            else smtpDialog false proxyConfig env
  | _ => some ⟨.invalid, 550, str "Invalid email format", false⟩

/-- `retryDelay` from `main.go`: 900 seconds (15 minutes). -/
def retryDelay : Int := 900

/-- One `EmailCheck` row as the worker sees it: the three columns its
UPDATE sets. -/
structure DBRow where
  status : String
  smtpCode : Int
  bounceReason : List Char
deriving DecidableEq, Repr

/-- The external state the worker mutates: the `EmailCheck` rows keyed
by `(jobId, email)`, the `email_retry_queue` sorted set (member,
score), and the `email_queue` list whose head is on the left. -/
structure Store where
  db : List ((String × List Char) × DBRow)
  retrySet : List (String × Int)
  queue : List String
deriving DecidableEq, Repr

/-- `updateEmailStatus` from `main.go` lines 390-401: an unconditional
UPDATE of every row matching `(jobId, email)`.  `dbOk` is the outcome of
`db.Exec`; on a database error nothing changes (the error is only
logged by the caller). -/
def updateEmailStatus (st : Store) (dbOk : Bool) (jobId : String)
    (email : List Char) (status : String) (smtpCode : Int)
    (bounceReason : List Char) : Store :=
  if dbOk then
    { st with
      db := st.db.map fun e =>
        if e.1 = (jobId, email) then (e.1, ⟨status, smtpCode, bounceReason⟩)
        else e }
  else st

/-- Redis `ZADD`: upsert the member with the given score. -/
def zadd (s : List (String × Int)) (member : String) (score : Int) :
    List (String × Int) :=
  (member, score) :: s.filter fun p => !(decide (p.1 = member))

/-- Redis `ZREM`: remove the member. -/
def zrem (s : List (String × Int)) (member : String) : List (String × Int) :=
  s.filter fun p => !(decide (p.1 = member))

/-- Per-call environment of `processEmail` that is outside the worker's
control: the SMTP environment, the current Unix time, the result of
`json.Marshal(job)` (`none` = marshal error), and whether the `ZADD`
and the SQL UPDATE succeed. -/
structure WorkerEnv where
  smtp : SMTPEnv
  now : Int
  encodeResult : Option String
  zaddOk : Bool
  dbOk : Bool

/-- `processEmail` from `main.go` lines 301-387 (the store effects).
Order as in the source: syntax check (reject → write
`INVALID/550/"Invalid email syntax"`), split check (reject → write
`INVALID/550/"Invalid email format"`), rate-limit wait (no store
effect), `CheckEmail` (never returns a Go error, so the `err != nil`
branch at lines 335-339 is dead; `none` = its panic, which aborts the
worker with no store change), then the greylisting branch: a retryable
result is `ZADD`ed to the retry set with score `now + retryDelay` and
nothing is written to the database, falling back to a database write of
the greylisted result if the marshal or the `ZADD` fails; a
non-retryable result is written to the database immediately. -/
def processEmail (job : EmailJob) (isDevMode : Bool)
    (proxyConfig : Option ProxyConfig) (env : WorkerEnv) (st : Store) :
    Option Store :=
  if isValidEmailSyntax job.email then
    match splitOnChar '@' job.email with
    | [_lp, _dp] =>
        match checkEmail job.email isDevMode proxyConfig env.smtp with
        | none => none
        | some result =>
            if result.isRetryable then
              match env.encodeResult with
              | none =>
                  some (updateEmailStatus st env.dbOk job.jobId job.email
                    (statusString result.status) result.smtpCode result.bounceReason)
              | some jobJSON =>
                  if env.zaddOk then
                    some { st with
                           retrySet := zadd st.retrySet jobJSON (env.now + retryDelay) }
                  else
                    some (updateEmailStatus st env.dbOk job.jobId job.email
                      (statusString result.status) result.smtpCode result.bounceReason)
            else
              some (updateEmailStatus st env.dbOk job.jobId job.email
                (statusString result.status) result.smtpCode result.bounceReason)
    | _ =>
        some (updateEmailStatus st env.dbOk job.jobId job.email
          "INVALID" 550 (str "Invalid email format"))
  else
    some (updateEmailStatus st env.dbOk job.jobId job.email
      "INVALID" 550 (str "Invalid email syntax"))

/-- The members of the retry set due at `now`:
`ZRANGEBYSCORE email_retry_queue -inf now`. -/
def dueMembers (retrySet : List (String × Int)) (now : Int) : List String :=
  (retrySet.filter fun p => decide (p.2 ≤ now)).map Prod.fst

/-- One iteration of the per-item loop in `RetryMonitor` (`main.go`
lines 252-284): parse the member (`decode` is `json.Unmarshal`; a parse
failure deletes the member), `ZREM` it, then `LPUSH` its re-serialized
job (`encode` is `json.Marshal`, whose error the code ignores) onto the
head of the main queue; if the push fails, re-insert the original
member with score `now + retryDelay`. -/
def retryTickItem (decode : String → Option EmailJob) (encode : EmailJob → String)
    (pushOk : String → Bool) (now : Int) (st : Store) (item : String) : Store :=
  match decode item with
  | none => { st with retrySet := zrem st.retrySet item }
  | some job =>
      let st1 := { st with retrySet := zrem st.retrySet item }
      let jobJSON := encode job
      if pushOk item then { st1 with queue := jobJSON :: st1.queue }
      else { st1 with retrySet := zadd st1.retrySet item (now + retryDelay) }

/-- One 30-second tick of `RetryMonitor` (`main.go` lines 222-290):
process every member whose score is at most `now`. -/
def retryTick (decode : String → Option EmailJob) (encode : EmailJob → String)
    (pushOk : String → Bool) (now : Int) (st : Store) : Store :=
  (dueMembers st.retrySet now).foldl (retryTickItem decode encode pushOk now) st

/-! ## Theorems for the specification claims -/

/-- C4: the response classifier applied to the RCPT TO reply code is the
pure mapping 250 → (Valid, false); 251, 252 → (CatchAll, false); 421,
450, 451 → (Greylisted, true); 550, 551, 553 → (Invalid, false); every
other code → (Unknown, false); and `retryable = true` exactly for 421,
450 and 451. -/
theorem c4_classifier_mapping :
    classifyRcptCode 250 = (.valid, false) ∧
    classifyRcptCode 251 = (.catchAll, false) ∧
    classifyRcptCode 252 = (.catchAll, false) ∧
    classifyRcptCode 421 = (.greylisted, true) ∧
    classifyRcptCode 450 = (.greylisted, true) ∧
    classifyRcptCode 451 = (.greylisted, true) ∧
    classifyRcptCode 550 = (.invalid, false) ∧
    classifyRcptCode 551 = (.invalid, false) ∧
    classifyRcptCode 553 = (.invalid, false) ∧
    (∀ code : Int,
      code ∉ ([250, 251, 252, 421, 450, 451, 550, 551, 553] : List Int) →
      classifyRcptCode code = (.unknown, false)) ∧
    (∀ code : Int,
      (classifyRcptCode code).2 = true ↔ code = 421 ∨ code = 450 ∨ code = 451) := by
  refine ⟨by decide, by decide, by decide, by decide, by decide, by decide,
    by decide, by decide, by decide, ?_, ?_⟩
  · intro code h
    simp only [List.mem_cons, List.not_mem_nil, or_false, not_or] at h
    obtain ⟨h1, h2, h3, h4, h5, h6, h7, h8, h9⟩ := h
    simp [classifyRcptCode, h1, h2, h3, h4, h5, h6, h7, h8, h9]
  · intro code
    unfold classifyRcptCode
    split_ifs <;> simp_all <;> omega

/-- C4 witness: the classifier at the concrete code 599 (not one of the
listed codes) yields (Unknown, false). -/
theorem c4_classifier_mapping_witness :
    classifyRcptCode 599 = (.unknown, false) :=
  c4_classifier_mapping.2.2.2.2.2.2.2.2.2.1 599 (by decide)

/-- C1 (code bug record): the claim says the process-global bucket is
constructed with rate 2 tokens/sec and burst 2.  `NewRateLimiterManager`
in `ratelimiter.go` actually constructs `rate.NewLimiter(10, 10)`,
contradicting `main.go`'s own banner and comments ("Global: 2/sec
TOTAL") and the repository's production-safety fix notes.  The second
half of the claim does hold: the dispatcher's loop acquires one global
token before every blocking pop. -/
theorem c1_global_limiter_constructed_ten_ten :
    newRateLimiterManager.globalLimiter = ⟨10, 10⟩ ∧
    newRateLimiterManager.globalLimiter.rateLimit ≠ 2 ∧
    newRateLimiterManager.globalLimiter.burst ≠ 2 ∧
    (∀ (job : EmailJob) (dev pc mx probe : Bool),
      (itemTrace job dev pc mx probe).take 2 = [.acquireGlobal, .pop]) :=
  ⟨rfl, by decide, by decide, fun _ _ _ _ _ => rfl⟩

/-- C10: `RateLimiterManager.Wait` takes a global token and then the
per-domain token, so a work item that reaches the per-domain wait has
consumed exactly two global tokens so far: one taken by the dispatcher
before the blocking pop and one taken inside `Wait`. -/
theorem c10_two_global_tokens_before_domain_wait :
    managerWaitTrace = [.acquireGlobal, .acquireDomain] ∧
    ∀ (job : EmailJob) (dev pc mx probe : Bool),
      isValidEmailSyntax job.email = true →
      globalsBeforeDomainWait (itemTrace job dev pc mx probe) = 2 ∧
      Event.acquireDomain ∈ itemTrace job dev pc mx probe := by
  refine ⟨rfl, ?_⟩
  intro job dev pc mx probe h
  simp [itemTrace, processEmailTrace, managerWaitTrace, h,
    globalsBeforeDomainWait]

/-- C10 witness: the item `{J1, a@b.co}` passes the syntax check and its
pipeline acquires exactly two global tokens before the domain wait. -/
theorem c10_two_global_tokens_witness :
    globalsBeforeDomainWait
      (itemTrace ⟨"J1", str "a@b.co"⟩ true false false false) = 2 ∧
    Event.acquireDomain ∈ itemTrace ⟨"J1", str "a@b.co"⟩ true false false false :=
  c10_two_global_tokens_before_domain_wait.2 ⟨"J1", str "a@b.co"⟩
    true false false false (by decide)

/-- C3: in every per-item pipeline trace, every outbound TCP connect
(main dialog or catch-all probe) is preceded by at least one
global-token acquisition, and every catch-all probe connect is in
addition preceded by a token acquisition on the probed domain's
per-domain bucket. -/
theorem c3_every_connect_paced :
    ∀ (job : EmailJob) (dev pc mx probe : Bool),
      paced (itemTrace job dev pc mx probe) 0 0 = true := by
  intro job dev pc mx probe
  cases h : isValidEmailSyntax job.email <;>
    cases dev <;> cases pc <;> cases mx <;> cases probe <;>
    simp [itemTrace, processEmailTrace, checkEmailTrace, managerWaitTrace,
      paced, h]

/-- C5: in production mode with no (effective) proxy the dial gateway
returns an error without ever dialing; and when the connect step of the
main dialog fails with error `e` — in production (after a successful MX
resolution and a non-catch-all probe) or in dev mode — the per-item
outcome is `{Unknown, 0, "Connection failed: " ++ e}`. -/
theorem c5_dial_gateway_failsafe :
    (∀ (pc : Option ProxyConfig) (env : DialEnv),
      proxyEffective pc = false →
      connectWithProxy false pc env =
        (.error "SOCKS5_PROXY not configured in production mode (safety requirement)",
         false)) ∧
    (∀ (email lp dp : List Char) (pc : Option ProxyConfig) (env : SMTPEnv)
       (e : String) (m : MXRecord) (ms : List MXRecord),
      splitOnChar '@' email = [lp, dp] →
      env.mxResult = .ok (m :: ms) →
      ¬(m.host = [] ∨ trimSpace m.host = []) →
      trimDotSuffix m.host ≠ [] →
      (checkCatchAll pc env.probe).isCatchAll = false →
      (connectWithProxy false pc env.dial).1 = .error e →
      checkEmail email false pc env =
        some ⟨.unknown, 0, str ("Connection failed: " ++ e), false⟩) ∧
    (∀ (email lp dp : List Char) (pc : Option ProxyConfig) (env : SMTPEnv)
       (e : String),
      splitOnChar '@' email = [lp, dp] →
      (connectWithProxy true pc env.dial).1 = .error e →
      checkEmail email true pc env =
        some ⟨.unknown, 0, str ("Connection failed: " ++ e), false⟩) := by
  refine ⟨?_, ?_, ?_⟩
  · intro pc env h
    simp [connectWithProxy, h]
  · intro email lp dp pc env e m ms hsplit hmx hhost htrim hprobe hdial
    simp [checkEmail, hsplit, hmx, hhost, htrim, hprobe, smtpDialog, hdial]
  · intro email lp dp pc env e hsplit hdial
    simp [checkEmail, hsplit, smtpDialog, hdial]

/-- C5 witness: production without a proxy refuses on a concrete dial
environment, and a concrete SOCKS5 dial failure surfaces as the
`{Unknown, 0, "Connection failed: …"}` outcome. -/
theorem c5_dial_gateway_failsafe_witness :
    connectWithProxy false none ⟨.ok (), .ok (), .timedOut⟩ =
      (.error "SOCKS5_PROXY not configured in production mode (safety requirement)",
       false) ∧
    checkEmail (str "a@b.co") false (some ⟨"1.2.3.4:1080", "u", "p"⟩)
      ⟨.ok [⟨str "mx.b.co"⟩],
       ⟨⟨.ok (), .ok (), .result (.error "refused")⟩, .ok (str "550 no")⟩,
       ⟨.ok (), .ok (), .result (.error "refused")⟩,
       .ok (str "220 hi"), .ok (), .ok (str "250 ok"), .ok (),
       .ok (str "250 ok"), .ok (), .ok (str "550 no")⟩ =
      some ⟨.unknown, 0,
        str ("Connection failed: " ++ ("SOCKS5 proxy connection failed: " ++ "refused")),
        false⟩ :=
  ⟨c5_dial_gateway_failsafe.1 none ⟨.ok (), .ok (), .timedOut⟩ rfl,
   c5_dial_gateway_failsafe.2.1 (str "a@b.co") (str "a") (str "b.co")
     (some ⟨"1.2.3.4:1080", "u", "p"⟩)
     ⟨.ok [⟨str "mx.b.co"⟩],
      ⟨⟨.ok (), .ok (), .result (.error "refused")⟩, .ok (str "550 no")⟩,
      ⟨.ok (), .ok (), .result (.error "refused")⟩,
      .ok (str "220 hi"), .ok (), .ok (str "250 ok"), .ok (),
      .ok (str "250 ok"), .ok (), .ok (str "550 no")⟩
     ("SOCKS5 proxy connection failed: " ++ "refused") ⟨str "mx.b.co"⟩ []
     (by decide) rfl (by decide) (by decide) rfl rfl⟩

/-- C2 (amended): when the SMTP check yields a retryable outcome and the
serialization and the `ZADD` succeed, the worker performs no database
write for that delivery — it only inserts the serialized work item into
the delayed-retry set with score `now + 900` (so the row keeps whatever
status it had, e.g. PENDING).  The unamended claim fails because a
marshal or `ZADD` failure falls back to a database write of the
greylisted outcome (see the counterexample). -/
theorem c2_retryable_diverted_to_retry_set :
    retryDelay = 900 ∧
    ∀ (job : EmailJob) (lp dp : List Char) (isDevMode : Bool)
      (pc : Option ProxyConfig) (env : WorkerEnv) (st : Store)
      (res : SMTPResult) (member : String),
      isValidEmailSyntax job.email = true →
      splitOnChar '@' job.email = [lp, dp] →
      checkEmail job.email isDevMode pc env.smtp = some res →
      res.isRetryable = true →
      env.encodeResult = some member →
      env.zaddOk = true →
      processEmail job isDevMode pc env st =
        some { st with retrySet := zadd st.retrySet member (env.now + retryDelay) } ∧
      (member, env.now + retryDelay) ∈ zadd st.retrySet member (env.now + retryDelay) := by
  refine ⟨rfl, ?_⟩
  intro job lp dp isDevMode pc env st res member hv hsplit hchk hret henc hz
  refine ⟨?_, by simp [zadd]⟩
  simp [processEmail, hv, hsplit, hchk, hret, henc, hz]

/-- C2 witness: a concrete dev-mode greylisting run (RCPT reply
`451 try later`) with a successful `ZADD` leaves the database untouched
and schedules the member at `now + retryDelay`. -/
theorem c2_retryable_diverted_witness :
    processEmail ⟨"J3", str "slow@grey.example"⟩ true none
      ⟨⟨.ok [], ⟨⟨.ok (), .ok (), .timedOut⟩, .ok []⟩,
        ⟨.ok (), .ok (), .result (.ok ())⟩,
        .ok (str "220 hi"), .ok (), .ok (str "250 ok"), .ok (),
        .ok (str "250 ok"), .ok (), .ok (str "451 try later")⟩,
       1000, some "member", true, true⟩
      ⟨[], [], []⟩ =
      some ⟨[], zadd [] "member" (1000 + retryDelay), []⟩ ∧
    ("member", 1000 + retryDelay) ∈ zadd ([] : List (String × Int)) "member"
      (1000 + retryDelay) :=
  c2_retryable_diverted_to_retry_set.2 ⟨"J3", str "slow@grey.example"⟩
    (str "slow") (str "grey.example") true none
    ⟨⟨.ok [], ⟨⟨.ok (), .ok (), .timedOut⟩, .ok []⟩,
      ⟨.ok (), .ok (), .result (.ok ())⟩,
      .ok (str "220 hi"), .ok (), .ok (str "250 ok"), .ok (),
      .ok (str "250 ok"), .ok (), .ok (str "451 try later")⟩,
     1000, some "member", true, true⟩
    ⟨[], [], []⟩ ⟨.greylisted, 451, str "try later", true⟩ "member"
    (by decide) (by decide) (by decide) rfl rfl rfl

/-- C2 counterexample: the same greylisting run with a failing `ZADD`
makes the worker write the row — and write it as GREYLISTED — so the
claim "no database write, the row is never set to GREYLISTED" is false
as stated. -/
theorem c2_counterexample_zadd_failure_writes_greylisted :
    processEmail ⟨"J3", str "slow@grey.example"⟩ true none
      ⟨⟨.ok [], ⟨⟨.ok (), .ok (), .timedOut⟩, .ok []⟩,
        ⟨.ok (), .ok (), .result (.ok ())⟩,
        .ok (str "220 hi"), .ok (), .ok (str "250 ok"), .ok (),
        .ok (str "250 ok"), .ok (), .ok (str "451 try later")⟩,
       1000, some "member", false, true⟩
      ⟨[(("J3", str "slow@grey.example"), ⟨"PENDING", 0, []⟩)], [], []⟩ =
      some ⟨[(("J3", str "slow@grey.example"),
              ⟨"GREYLISTED", 451, str "try later"⟩)], [], []⟩ ∧
    "GREYLISTED" ≠ "PENDING" := by
  constructor
  · decide
  · decide

/-- C7: each retry-monitor tick queries the members with score ≤ now and
for each such member: a parse failure deletes it; otherwise it is
removed from the set and its job pushed onto the head of the main queue;
if the push fails it is re-inserted with score `now + 900`, so it is
never lost. -/
theorem c7_retry_monitor :
    (∀ (s : List (String × Int)) (now sc : Int) (m : String),
      (m, sc) ∈ s → sc ≤ now → m ∈ dueMembers s now) ∧
    (∀ (dec : String → Option EmailJob) (enc : EmailJob → String)
       (push : String → Bool) (now : Int) (st : Store) (item : String),
      dec item = none →
      retryTickItem dec enc push now st item =
        { st with retrySet := zrem st.retrySet item }) ∧
    (∀ (dec : String → Option EmailJob) (enc : EmailJob → String)
       (push : String → Bool) (now : Int) (st : Store) (item : String)
       (job : EmailJob),
      dec item = some job → push item = true →
      retryTickItem dec enc push now st item =
        { st with retrySet := zrem st.retrySet item,
                  queue := enc job :: st.queue }) ∧
    (∀ (dec : String → Option EmailJob) (enc : EmailJob → String)
       (push : String → Bool) (now : Int) (st : Store) (item : String)
       (job : EmailJob),
      dec item = some job → push item = false →
      retryTickItem dec enc push now st item =
        { st with retrySet := zadd (zrem st.retrySet item) item (now + retryDelay) } ∧
      (item, now + retryDelay) ∈
        zadd (zrem st.retrySet item) item (now + retryDelay)) ∧
    (∀ (s : List (String × Int)) (item : String) (sc : Int),
      (item, sc) ∉ zrem s item) ∧
    (∀ (dec : String → Option EmailJob) (enc : EmailJob → String)
       (push : String → Bool) (now : Int) (st : Store),
      retryTick dec enc push now st =
        (dueMembers st.retrySet now).foldl (retryTickItem dec enc push now) st) := by
  refine ⟨?_, ?_, ?_, ?_, ?_, fun _ _ _ _ _ => rfl⟩
  · intro s now sc m hmem hle
    exact List.mem_map.mpr
      ⟨(m, sc), List.mem_filter.mpr ⟨hmem, decide_eq_true hle⟩, rfl⟩
  · intro dec enc push now st item h
    simp [retryTickItem, h]
  · intro dec enc push now st item job h hp
    simp [retryTickItem, h, hp]
  · intro dec enc push now st item job h hp
    exact ⟨by simp [retryTickItem, h, hp], by simp [zadd]⟩
  · intro s item sc
    simp [zrem, List.mem_filter]

/-- C7 witness: a concrete due member is selected; with a failing push
it is re-inserted at `now + retryDelay` and hence not lost. -/
theorem c7_retry_monitor_witness :
    "x" ∈ dueMembers [("x", 5)] 10 ∧
    retryTickItem (fun _ => some ⟨"J", str "a@b.co"⟩) (fun _ => "ser")
      (fun _ => false) 10 ⟨[], [("x", 5)], []⟩ "x" =
      { (⟨[], [("x", 5)], []⟩ : Store) with
        retrySet := zadd (zrem [("x", 5)] "x") "x" (10 + retryDelay) } ∧
    ("x", 10 + retryDelay) ∈ zadd (zrem [("x", 5)] "x") "x" (10 + retryDelay) :=
  ⟨c7_retry_monitor.1 [("x", 5)] 10 5 "x" (by decide) (by decide),
   (c7_retry_monitor.2.2.2.1 (fun _ => some ⟨"J", str "a@b.co"⟩)
     (fun _ => "ser") (fun _ => false) 10 ⟨[], [("x", 5)], []⟩ "x"
     ⟨"J", str "a@b.co"⟩ rfl rfl).1,
   (c7_retry_monitor.2.2.2.1 (fun _ => some ⟨"J", str "a@b.co"⟩)
     (fun _ => "ser") (fun _ => false) 10 ⟨[], [("x", 5)], []⟩ "x"
     ⟨"J", str "a@b.co"⟩ rfl rfl).2⟩

theorem updateRow_idem (j : String) (e : List Char) (s : String) (c : Int)
    (r : List Char) (db : List ((String × List Char) × DBRow)) :
    ((db.map fun x => if x.1 = (j, e) then (x.1, (⟨s, c, r⟩ : DBRow)) else x).map
        fun x => if x.1 = (j, e) then (x.1, (⟨s, c, r⟩ : DBRow)) else x) =
      db.map fun x => if x.1 = (j, e) then (x.1, (⟨s, c, r⟩ : DBRow)) else x := by
  induction db with
  | nil => rfl
  | cons a t ih => by_cases h : a.1 = (j, e) <;> simp [h, ih]

theorem updateEmailStatus_db_idem (st : Store) (dbOk : Bool) (j : String)
    (e : List Char) (s : String) (c : Int) (r : List Char) :
    (updateEmailStatus (updateEmailStatus st dbOk j e s c r) dbOk j e s c r).db =
      (updateEmailStatus st dbOk j e s c r).db := by
  cases dbOk
  · rfl
  · simp only [updateEmailStatus, eq_self_iff_true, if_true]
    exact updateRow_idem j e s c r st.db

/-- C8 (amended): `updateEmailStatus` updates the row unconditionally,
so redelivery is idempotent only when the re-check observes the same
outcome: re-running `processEmail` on the same item with the same
environment leaves the stored row exactly as after the first run.  The
unamended claim ("a terminal row is never overwritten with a different
value") fails because the UPDATE has no status guard (see the
counterexample). -/
theorem c8_redelivery_same_outcome_idempotent
    (job : EmailJob) (isDevMode : Bool) (pc : Option ProxyConfig)
    (env : WorkerEnv) (st st1 st2 : Store) :
    processEmail job isDevMode pc env st = some st1 →
    processEmail job isDevMode pc env st1 = some st2 →
    st2.db = st1.db := by
  intro h1 h2
  unfold processEmail at h1 h2
  cases hv : isValidEmailSyntax job.email <;> simp only [hv] at h1 h2
  · simp only [Bool.false_eq_true, if_false, Option.some.injEq] at h1 h2
    rw [← h1] at h2
    rw [← h2, ← h1]
    exact updateEmailStatus_db_idem _ _ _ _ _ _ _
  · simp only [if_true] at h1 h2
    rcases hs : splitOnChar '@' job.email with _ | ⟨lp, _ | ⟨dp, _ | ⟨x, rest⟩⟩⟩ <;>
      simp only [hs] at h1 h2
    · simp only [Option.some.injEq] at h1 h2
      rw [← h1] at h2
      rw [← h2, ← h1]
      exact updateEmailStatus_db_idem _ _ _ _ _ _ _
    · simp only [Option.some.injEq] at h1 h2
      rw [← h1] at h2
      rw [← h2, ← h1]
      exact updateEmailStatus_db_idem _ _ _ _ _ _ _
    · rcases hc : checkEmail job.email isDevMode pc env.smtp with _ | res <;>
        simp only [hc] at h1 h2
      · exact Option.noConfusion h1
      · cases hr : res.isRetryable <;>
          simp only [hr, Bool.false_eq_true, if_false, if_true] at h1 h2
        · simp only [Option.some.injEq] at h1 h2
          rw [← h1] at h2
          rw [← h2, ← h1]
          exact updateEmailStatus_db_idem _ _ _ _ _ _ _
        · rcases he : env.encodeResult with _ | m <;> simp only [he] at h1 h2
          · simp only [Option.some.injEq] at h1 h2
            rw [← h1] at h2
            rw [← h2, ← h1]
            exact updateEmailStatus_db_idem _ _ _ _ _ _ _
          · cases hz : env.zaddOk <;>
              simp only [hz, Bool.false_eq_true, if_false, if_true,
                Option.some.injEq] at h1 h2
            · rw [← h1] at h2
              rw [← h2, ← h1]
              exact updateEmailStatus_db_idem _ _ _ _ _ _ _
            · rw [← h2, ← h1]
    · simp only [Option.some.injEq] at h1 h2
      rw [← h1] at h2
      rw [← h2, ← h1]
      exact updateEmailStatus_db_idem _ _ _ _ _ _ _

/-- C8 witness: a concrete dev-mode run written twice with the same
observed outcome leaves the row unchanged. -/
theorem c8_redelivery_idempotent_witness :
    (⟨[(("J1", str "a@b.co"), ⟨"VALID", 250, str "ok"⟩)], [], []⟩ : Store).db =
      (⟨[(("J1", str "a@b.co"), ⟨"VALID", 250, str "ok"⟩)], [], []⟩ : Store).db :=
  c8_redelivery_same_outcome_idempotent ⟨"J1", str "a@b.co"⟩ true none
    ⟨⟨.ok [], ⟨⟨.ok (), .ok (), .timedOut⟩, .ok []⟩,
      ⟨.ok (), .ok (), .result (.ok ())⟩,
      .ok (str "220 hi"), .ok (), .ok (str "250 ok"), .ok (),
      .ok (str "250 ok"), .ok (), .ok (str "250 ok")⟩, 0, some "m", true, true⟩
    ⟨[(("J1", str "a@b.co"), ⟨"PENDING", 0, []⟩)], [], []⟩
    ⟨[(("J1", str "a@b.co"), ⟨"VALID", 250, str "ok"⟩)], [], []⟩
    ⟨[(("J1", str "a@b.co"), ⟨"VALID", 250, str "ok"⟩)], [], []⟩
    (by decide) (by decide)

/-- C8 counterexample: a redelivery whose re-check observes a different
SMTP reply (550 after an earlier 250) overwrites the terminal VALID row
with INVALID, so the claim "the worker never overwrites a terminal row
with a different value" is false as stated. -/
theorem c8_counterexample_terminal_overwritten :
    processEmail ⟨"J1", str "a@b.co"⟩ true none
      ⟨⟨.ok [], ⟨⟨.ok (), .ok (), .timedOut⟩, .ok []⟩,
        ⟨.ok (), .ok (), .result (.ok ())⟩,
        .ok (str "220 hi"), .ok (), .ok (str "250 ok"), .ok (),
        .ok (str "250 ok"), .ok (), .ok (str "250 ok")⟩, 0, some "m", true, true⟩
      ⟨[(("J1", str "a@b.co"), ⟨"PENDING", 0, []⟩)], [], []⟩ =
      some ⟨[(("J1", str "a@b.co"), ⟨"VALID", 250, str "ok"⟩)], [], []⟩ ∧
    processEmail ⟨"J1", str "a@b.co"⟩ true none
      ⟨⟨.ok [], ⟨⟨.ok (), .ok (), .timedOut⟩, .ok []⟩,
        ⟨.ok (), .ok (), .result (.ok ())⟩,
        .ok (str "220 hi"), .ok (), .ok (str "250 ok"), .ok (),
        .ok (str "250 ok"), .ok (), .ok (str "550 No such user")⟩,
       0, some "m", true, true⟩
      ⟨[(("J1", str "a@b.co"), ⟨"VALID", 250, str "ok"⟩)], [], []⟩ =
      some ⟨[(("J1", str "a@b.co"), ⟨"INVALID", 550, str "No such user"⟩)], [], []⟩ ∧
    ("INVALID" : String) ≠ "VALID" :=
  ⟨by decide, by decide, by decide⟩

/-- C9 (code bug record): the claim says extracting the remainder of the
RCPT TO reply does not fail for replies shorter than 5 bytes.
`parseSMTPCode` is total (its own `len < 3` guard), but the slice
`response[4:]` at `smtp.go` line 285 panics for any reply of fewer than
4 bytes: on the 3-byte reply `"250"` the code parses the code and then
crashes, so `CheckEmail` never returns (modelled as `none`).  Length 4
is the true boundary (`"250 "` yields the empty remainder). -/
theorem c9_short_rcpt_reply_crashes :
    parseSMTPCode (str "250") = 250 ∧
    rcptBounce (str "250") = none ∧
    rcptBounce (str "250 ") = some [] ∧
    checkEmail (str "a@b.co") true none
      ⟨.ok [], ⟨⟨.ok (), .ok (), .timedOut⟩, .ok []⟩,
       ⟨.ok (), .ok (), .result (.ok ())⟩,
       .ok (str "220 hi"), .ok (), .ok (str "250 ok"), .ok (),
       .ok (str "250 ok"), .ok (), .ok (str "250")⟩ = none :=
  ⟨by decide, by decide, by decide, by decide⟩

theorem splitOnChar_length (sep : Char) (l : List Char) :
    (splitOnChar sep l).length = countChar sep l + 1 := by
  induction l with
  | nil => rfl
  | cons c rest ih =>
      by_cases h : c = sep
      · simp [splitOnChar, countChar, h, ih]
        omega
      · simp only [splitOnChar, countChar, h, if_false]
        cases hs : splitOnChar sep rest with
        | nil => rw [hs] at ih; simp at ih
        | cons hh tt =>
            rw [hs] at ih
            simp only [List.length_cons] at ih ⊢
            simp [h]
            omega

theorem splitOnChar_pair (sep : Char) (l : List Char)
    (h : countChar sep l = 1) : ∃ a b, splitOnChar sep l = [a, b] := by
  have hl := splitOnChar_length sep l
  rw [h] at hl
  rcases hs : splitOnChar sep l with _ | ⟨a, _ | ⟨b, _ | ⟨c, t⟩⟩⟩ <;>
    rw [hs] at hl <;> simp at hl
  exact ⟨a, b, rfl⟩

/-- An otherwise-valid address of total length 254: a 64-character local
part and a 189-character domain of three labels (63, 63, 61). -/
def sample254 : List Char :=
  List.replicate 64 'a' ++ '@' :: (List.replicate 63 'a' ++ '.' ::
    (List.replicate 63 'a' ++ '.' :: List.replicate 61 'a'))

/-- The same address with a 62-character last label: total length 255,
rejected by the length check alone (the regex still matches it). -/
def sample255 : List Char :=
  List.replicate 64 'a' ++ '@' :: (List.replicate 63 'a' ++ '.' ::
    (List.replicate 63 'a' ++ '.' :: List.replicate 62 'a'))

set_option maxRecDepth 4000 in
/-- C6: the syntax validator accepts only strings satisfying all the
listed constraints (length 3..254, exactly one `@`, local part 1..64
with no edge dot and no `..`, domain part 1..253 with no edge dot and no
`..`, a dot in the domain, last label of length ≥ 2, and the regex);
an otherwise-valid address of length 254 is accepted and one of length
255 is rejected; and every syntax rejection short-circuits `processEmail`
with the stored outcome `{INVALID, 550, "Invalid email syntax"}` and an
empty pacing trace (no token acquisition, no network action). -/
theorem c6_syntax_validator :
    (∀ e : List Char, isValidEmailSyntax e = true →
      3 ≤ e.length ∧ e.length ≤ 254 ∧ countChar '@' e = 1 ∧
      emailRegexMatch e = true ∧
      ∀ lp dp, splitOnChar '@' e = [lp, dp] →
        1 ≤ lp.length ∧ lp.length ≤ 64 ∧ hasDoubleDot lp = false ∧
        lp.head? ≠ some '.' ∧ lp.getLast? ≠ some '.' ∧
        1 ≤ dp.length ∧ dp.length ≤ 253 ∧ hasDoubleDot dp = false ∧
        dp.head? ≠ some '.' ∧ dp.getLast? ≠ some '.' ∧
        '.' ∈ dp ∧ 2 ≤ (lastLabel dp).length) ∧
    sample254.length = 254 ∧ isValidEmailSyntax sample254 = true ∧
    sample255.length = 255 ∧ isValidEmailSyntax sample255 = false ∧
    emailRegexMatch sample255 = true ∧
    (∀ (job : EmailJob) (dev : Bool) (pc : Option ProxyConfig)
       (env : WorkerEnv) (st : Store),
      isValidEmailSyntax job.email = false →
      processEmail job dev pc env st =
        some (updateEmailStatus st env.dbOk job.jobId job.email "INVALID" 550
          (str "Invalid email syntax"))) ∧
    (∀ (job : EmailJob) (dev pcConf mx probe : Bool),
      isValidEmailSyntax job.email = false →
      processEmailTrace job dev pcConf mx probe = []) := by
  refine ⟨?_, by decide, by decide, by decide, by decide, by decide, ?_, ?_⟩
  · intro e h
    rw [ isValidEmailSyntax] at h
    simp only [Bool.and_eq_true] at h
    obtain ⟨⟨hA, hB⟩, hM⟩ := h
    simp only [Bool.not_eq_true', Bool.or_eq_false_iff,
      decide_eq_false_iff_not, not_lt] at hA
    simp only [decide_eq_true_eq] at hB
    obtain ⟨lp0, dp0, hsplit0⟩ := splitOnChar_pair '@' e hB
    rw [hsplit0] at hM
    simp only [Bool.and_eq_true] at hM
    obtain ⟨⟨⟨⟨⟨⟨⟨⟨m1, m2⟩, m3⟩, m4⟩, m5⟩, m6⟩, m7⟩, m8⟩, m9⟩ := hM
    simp only [Bool.not_eq_true', Bool.or_eq_false_iff,
      decide_eq_false_iff_not, not_lt] at m1 m2 m3 m4 m5 m6 m8
    simp only [decide_eq_true_eq] at m7
    refine ⟨hA.1, hA.2, hB, m9, ?_⟩
    intro lp dp hsplit
    rw [hsplit0] at hsplit
    injection hsplit with e1 hrest
    injection hrest with e2 _
    subst e1; subst e2
    refine ⟨by omega, m1.2, m2, m3.1, m3.2, by omega, m4.2, m5, m6.1, m6.2,
      m7, by omega⟩
  · intro job dev pc env st h
    simp [processEmail, h]
  · intro job dev pcConf mx probe h
    simp [processEmailTrace, h]

/-- C6 witness: the address `a@b.co` is accepted (so its length bounds
hold), and the concretely malformed address `user@@bad.com` is rejected
with the stored outcome `{INVALID, 550, "Invalid email syntax"}`. -/
theorem c6_syntax_validator_witness :
    3 ≤ (str "a@b.co").length ∧
    processEmail ⟨"J5", str "user@@bad.com"⟩ true none
      ⟨⟨.ok [], ⟨⟨.ok (), .ok (), .timedOut⟩, .ok []⟩,
        ⟨.ok (), .ok (), .result (.ok ())⟩,
        .ok (str "220 hi"), .ok (), .ok (str "250 ok"), .ok (),
        .ok (str "250 ok"), .ok (), .ok (str "250 ok")⟩, 0, some "m", true, true⟩
      ⟨[], [], []⟩ =
      some (updateEmailStatus ⟨[], [], []⟩ true "J5" (str "user@@bad.com")
        "INVALID" 550 (str "Invalid email syntax")) :=
  ⟨(c6_syntax_validator.1 (str "a@b.co") (by decide)).1,
   c6_syntax_validator.2.2.2.2.2.2.1 ⟨"J5", str "user@@bad.com"⟩ true none
     ⟨⟨.ok [], ⟨⟨.ok (), .ok (), .timedOut⟩, .ok []⟩,
       ⟨.ok (), .ok (), .result (.ok ())⟩,
       .ok (str "220 hi"), .ok (), .ok (str "250 ok"), .ok (),
       .ok (str "250 ok"), .ok (), .ok (str "250 ok")⟩, 0, some "m", true, true⟩
     ⟨[], [], []⟩ (by decide)⟩

end EmailValidator
